import Mathlib

/-
Verification of the analytics core of a CI/CD metrics collector.

The Python source is shallowly embedded: strings are modelled as `List Char`,
floating-point durations and statistics as exact rationals (`ℚ`), datetimes as
integer seconds, SQL rows as Lean structures and SQL queries as list
filters/sorts over an explicit database value.  Machine floats are abstracted
to rationals: none of the verified properties hinges on rounding of IEEE
arithmetic.
-/

set_option allowUnsafeReducibility true

attribute [semireducible] Rat.mul Rat.add Rat.sub Rat.inv

namespace CICDMetrics

/-! ### Python string primitives over `List Char` -/

/-- Convert a string literal to the character-list representation. -/
def toL (s : String) : List Char := s.data

/-- ASCII lower-casing, modelling Python str.lower for the ASCII inputs used here. -/
def lowerL (s : List Char) : List Char := s.map Char.toLower

/-- Python whitespace characters recognised by str.strip / regex \s (ASCII range). -/
def isPyWS (c : Char) : Bool :=
  c == ' ' || c == '\t' || c == '\n' || c == '\r' || c == '\x0b' || c == '\x0c'

/-- Python str.strip: drop leading and trailing whitespace. -/
def pyStrip (s : List Char) : List Char :=
  ((s.dropWhile isPyWS).reverse.dropWhile isPyWS).reverse

/-- Boolean test: does the first list occur as a prefix of the second. -/
def isPrefixOfB : List Char → List Char → Bool
  | [], _ => true
  | _ :: _, [] => false
  | a :: as, b :: bs => a == b && isPrefixOfB as bs

/-- Python substring containment: needle in haystack. -/
def containsSub (needle hay : List Char) : Bool :=
  match hay with
  | [] => needle.isEmpty
  | _ :: t => isPrefixOfB needle hay || containsSub needle t

/-- Python str.splitlines on the line terminators \n, \r\n and \r
(a trailing terminator does not produce an extra empty line). -/
def splitLinesAux : List Char → List Char → List (List Char)
  | [], acc => if acc.isEmpty then [] else [acc.reverse]
  | '\r' :: '\n' :: t, acc => acc.reverse :: splitLinesAux t []
  | '\n' :: t, acc => acc.reverse :: splitLinesAux t []
  | '\r' :: t, acc => acc.reverse :: splitLinesAux t []
  | c :: t, acc => splitLinesAux t (c :: acc)

/-- Python str.splitlines. -/
def splitLines (s : List Char) : List (List Char) := splitLinesAux s []

/-- Python str.join with separator "\n". -/
def joinNL : List (List Char) → List Char
  | [] => []
  | [l] => l
  | l :: ls => l ++ '\n' :: joinNL ls

/-! ### Claim C1: the 28th-to-28th billing window

Embedding of the period computation in
MetricsCalculator.calculate_build_minutes_28_to_28
(src/app/analytics/metrics_calculator.py lines 174-192). -/

/-- A calendar date as carried by Python datetime (year from 1, month 1-12). -/
structure YMD where
  year : Nat
  month : Nat
  day : Nat
deriving DecidableEq, Repr

/-- Helper prev_month from calculate_build_minutes_28_to_28: previous calendar month. -/
def prevMonth (y m : Nat) : Nat × Nat :=
  if m = 1 then (y - 1, 12) else (y, m - 1)

/-- The period computation of calculate_build_minutes_28_to_28: from the
reference date, the period end is the most recent 28th on or before it (the
month rolls back when the day-of-month is below 28) and the period start is the
28th of the month before that.  Returns ((start year, start month), (end year,
end month)); both boundary days are the 28th. -/
def period28 (ref : YMD) : (Nat × Nat) × (Nat × Nat) :=
  let e := if ref.day < 28 then prevMonth ref.year ref.month else (ref.year, ref.month)
  (prevMonth e.1 e.2, e)

/-- Gregorian leap-year test. -/
def isLeap (y : Nat) : Bool := (y % 4 == 0 && y % 100 != 0) || y % 400 == 0

/-- Days in the months of a year strictly before month m (1-based). -/
def daysBeforeMonth (y m : Nat) : Nat :=
  let lens := [31, if isLeap y then 29 else 28, 31, 30, 31, 30, 31, 31, 30, 31, 30, 31]
  (lens.take (m - 1)).sum

/-- Proleptic Gregorian day number of a date (day 0 = January 1 of year 1),
defined for years from 1 as in Python datetime. -/
def dayNumber (d : YMD) : Nat :=
  365 * (d.year - 1) + (d.year - 1) / 4 - (d.year - 1) / 100 + (d.year - 1) / 400
    + daysBeforeMonth d.year d.month + (d.day - 1)

/-- Timestamp (seconds) of midnight UTC on the 28th of the given month. -/
def sec28 (ym : Nat × Nat) : Int := 86400 * (dayNumber ⟨ym.1, ym.2, 28⟩ : Int)

/-- The window filter of calculate_build_minutes_28_to_28: the code filters
completed_on to period_start <= t < period_end_excl where period_end_excl is
the period end plus one day, so the whole of both boundary 28ths is kept. -/
def inWindow28 (ref : YMD) (t : Int) : Bool :=
  let p := period28 ref
  sec28 p.1 ≤ t && t < sec28 p.2 + 86400

/-! ### SHA-1 (as called through hashlib.sha1(...).hexdigest())

A direct executable embedding of the SHA-1 standard over byte lists, with
32-bit words modelled as Nat reduced mod 2^32. -/

/-- Two to the 32, the word modulus of SHA-1. -/
def m32 : Nat := 4294967296

/-- Left rotation of a 32-bit word. -/
def rotl32 (x k : Nat) : Nat := ((x <<< k) % m32) ||| (x >>> (32 - k))

/-- Big-endian byte decomposition of a number into the given number of bytes. -/
def beBytes (n : Nat) : Nat → List Nat
  | 0 => []
  | k + 1 => beBytes (n >>> 8) k ++ [n % 256]

/-- SHA-1 padding: append 0x80, zero bytes to 56 mod 64, then the bit length. -/
def sha1Pad (msg : List Nat) : List Nat :=
  let len := msg.length
  let zeros := (120 - (len + 1) % 64) % 64
  msg ++ 128 :: List.replicate zeros 0 ++ beBytes (8 * len) 8

/-- Combine bytes into big-endian 32-bit words. -/
def wordsOf : List Nat → List Nat
  | b0 :: b1 :: b2 :: b3 :: t => ((((b0 <<< 8) ||| b1) <<< 8 ||| b2) <<< 8 ||| b3) :: wordsOf t
  | _ => []

/-- Split a word list into blocks of 16 words (fuel-based recursion). -/
def chunk16Aux : Nat → List Nat → List (List Nat)
  | 0, _ => []
  | _, [] => []
  | fuel + 1, ws => ws.take 16 :: chunk16Aux fuel (ws.drop 16)

/-- Split a word list into blocks of 16 words. -/
def chunk16 (ws : List Nat) : List (List Nat) := chunk16Aux ws.length ws

/-- Message-schedule expansion of a 16-word block to 80 words. -/
def sha1Expand (ws0 : List Nat) : List Nat :=
  (List.range 80).foldl
    (fun ws i =>
      if i < 16 then ws
      else ws ++ [rotl32 ((ws.getD (i - 3) 0) ^^^ (ws.getD (i - 8) 0) ^^^
                          (ws.getD (i - 14) 0) ^^^ (ws.getD (i - 16) 0)) 1])
    ws0

/-- The five-word working state of the SHA-1 compression function. -/
structure SHAState where
  a : Nat
  b : Nat
  c : Nat
  d : Nat
  e : Nat

/-- One round of the SHA-1 compression function. -/
def sha1Round (st : SHAState) (i w : Nat) : SHAState :=
  let f :=
    if i < 20 then (st.b &&& st.c) ||| ((st.b ^^^ 4294967295) &&& st.d)
    else if i < 40 then st.b ^^^ st.c ^^^ st.d
    else if i < 60 then (st.b &&& st.c) ||| (st.b &&& st.d) ||| (st.c &&& st.d)
    else st.b ^^^ st.c ^^^ st.d
  let k :=
    if i < 20 then 1518500249
    else if i < 40 then 1859775393
    else if i < 60 then 2400959708
    else 3395469782
  let tmp := (rotl32 st.a 5 + f + st.e + k + w) % m32
  ⟨tmp, st.a, rotl32 st.b 30, st.c, st.d⟩

/-- Process one 16-word block, updating the five-word hash value. -/
def sha1Block (h : List Nat) (block : List Nat) : List Nat :=
  let ws := sha1Expand block
  let init : SHAState := ⟨h.getD 0 0, h.getD 1 0, h.getD 2 0, h.getD 3 0, h.getD 4 0⟩
  let fin := (List.range 80).foldl (fun st i => sha1Round st i (ws.getD i 0)) init
  [(h.getD 0 0 + fin.a) % m32, (h.getD 1 0 + fin.b) % m32, (h.getD 2 0 + fin.c) % m32,
   (h.getD 3 0 + fin.d) % m32, (h.getD 4 0 + fin.e) % m32]

/-- SHA-1 digest of a byte list as five 32-bit words. -/
def sha1Words (msg : List Nat) : List Nat :=
  (chunk16 (wordsOf (sha1Pad msg))).foldl sha1Block
    [1732584193, 4023233417, 2562383102, 271733878, 3285377520]

/-- A lowercase hexadecimal digit. -/
def hexDigit (n : Nat) : Char := if n < 10 then Char.ofNat (48 + n) else Char.ofNat (87 + n)

/-- Eight-hex-digit rendering of a 32-bit word. -/
def hex8 (n : Nat) : List Char := (List.range 8).map (fun i => hexDigit ((n >>> (4 * (7 - i))) % 16))

/-- hashlib sha1 hexdigest over a byte list. -/
def sha1Hex (msg : List Nat) : List Char := ((sha1Words msg).map hex8).flatten

/-- UTF-8 encoding of one character (str.encode). -/
def utf8Bytes (c : Char) : List Nat :=
  let n := c.toNat
  if n < 128 then [n]
  else if n < 2048 then [192 ||| (n >>> 6), 128 ||| (n &&& 63)]
  else if n < 65536 then [224 ||| (n >>> 12), 128 ||| ((n >>> 6) &&& 63), 128 ||| (n &&& 63)]
  else [240 ||| (n >>> 18), 128 ||| ((n >>> 12) &&& 63), 128 ||| ((n >>> 6) &&& 63), 128 ||| (n &&& 63)]

/-- UTF-8 encoding of a string (str.encode). -/
def utf8Encode (s : List Char) : List Nat := (s.map utf8Bytes).flatten

/-! ### Claim C2: ErrorAnalyzer.extract_error_signature
(src/app/analytics/error_analyzer.py lines 19-51) -/

/-- The case-insensitive keywords selecting interesting log lines. -/
def errorKeywords : List (List Char) :=
  [toL "error", toL "exception", toL "traceback", toL "failed", toL "fatal"]

/-- Line filter of extract_error_signature: any keyword occurs in the lowercased line. -/
def lineHasErrorKeyword (l : List Char) : Bool :=
  errorKeywords.any (fun k => containsSub k (lowerL l))

/-- Is the character an ASCII decimal digit. -/
def isDigitB (c : Char) : Bool := '0' ≤ c && c ≤ '9'

/-- Try to match the regex shape dddd-dd-dd[ws or T]dd:dd:dd at the head of the
list; on success return the remainder after the 19 matched characters. -/
def tsMatch : List Char → Option (List Char)
  | d1 :: d2 :: d3 :: d4 :: '-' :: m1 :: m2 :: '-' :: a1 :: a2 :: sp :: h1 :: h2 :: ':' :: n1 :: n2 :: ':' :: s1 :: s2 :: rest =>
      if isDigitB d1 && isDigitB d2 && isDigitB d3 && isDigitB d4 &&
         isDigitB m1 && isDigitB m2 && isDigitB a1 && isDigitB a2 &&
         (isPyWS sp || sp == 'T') &&
         isDigitB h1 && isDigitB h2 && isDigitB n1 && isDigitB n2 &&
         isDigitB s1 && isDigitB s2 then some rest else none
  | _ => none

/-- re.sub of the ISO timestamp pattern with the empty replacement (fuel-based scanner). -/
def stripTsAux : Nat → List Char → List Char
  | 0, s => s
  | _, [] => []
  | fuel + 1, c :: t =>
      match tsMatch (c :: t) with
      | some rest => stripTsAux fuel rest
      | none => c :: stripTsAux fuel t

/-- re.sub removing ISO timestamps, first normalization step of extract_error_signature. -/
def stripTimestamps (s : List Char) : List Char := stripTsAux s.length s

/-- Find the first close bracket and return the remainder after it (the lazy
dot-star of the bracketed-date regex). -/
def afterCloseBracket : List Char → Option (List Char)
  | [] => none
  | ']' :: t => some t
  | _ :: t => afterCloseBracket t

/-- Try to match a bracketed date prefix: open bracket, dddd-dd-dd, then lazily
anything up to the first close bracket.  Returns the remainder after the match. -/
def dateBracketMatch : List Char → Option (List Char)
  | '[' :: d1 :: d2 :: d3 :: d4 :: '-' :: m1 :: m2 :: '-' :: a1 :: a2 :: rest =>
      if isDigitB d1 && isDigitB d2 && isDigitB d3 && isDigitB d4 &&
         isDigitB m1 && isDigitB m2 && isDigitB a1 && isDigitB a2 then
        afterCloseBracket rest
      else none
  | _ => none

/-- re.sub of the bracketed-date pattern with the empty replacement (fuel-based scanner). -/
def stripDbAux : Nat → List Char → List Char
  | 0, s => s
  | _, [] => []
  | fuel + 1, c :: t =>
      match dateBracketMatch (c :: t) with
      | some rest => stripDbAux fuel rest
      | none => c :: stripDbAux fuel t

/-- re.sub removing bracketed date prefixes, second normalization step. -/
def stripDateBrackets (s : List Char) : List Char := stripDbAux s.length s

/-- extract_error_signature: keep the last 10 keyword-bearing lines, strip
timestamps and bracketed dates, lowercase and trim, join with newlines, and
pair the text with its SHA-1 hex digest. -/
def extractErrorSignature (log : List Char) : List Char × List Char :=
  if log.isEmpty then ([], []) else
  let lines := splitLines log
  let interesting0 := (lines.filter lineHasErrorKeyword).map pyStrip
  let interesting := interesting0.drop (interesting0.length - 10)
  let normalized :=
    (interesting.map (fun l => lowerL (pyStrip (stripDateBrackets (stripTimestamps l))))).filter
      (fun l => !l.isEmpty)
  let signatureText := joinNL normalized
  (signatureText, sha1Hex (utf8Encode signatureText))

/-! ### Claim C6: PatternMatcher.normalize_error_message
(src/app/analytics/pattern_matcher.py lines 12-41) -/

/-- Is the character a lowercase hexadecimal digit. -/
def isHexDigitLower (c : Char) : Bool := isDigitB c || ('a' ≤ c && c ≤ 'f')

/-- re.sub replacing slash-anchored path tokens by the [PATH] placeholder. -/
def subPathAux : Nat → List Char → List Char
  | 0, s => s
  | _, [] => []
  | fuel + 1, '/' :: t =>
      match t with
      | c :: _ =>
          if isPyWS c then '/' :: subPathAux fuel t
          else toL "[PATH]" ++ subPathAux fuel (t.dropWhile (fun d => !isPyWS d))
      | [] => ['/']
  | fuel + 1, c :: t => c :: subPathAux fuel t

/-- re.sub replacing digits-colon-digits pairs by the [LINE] placeholder. -/
def subLineAux : Nat → List Char → List Char
  | 0, s => s
  | _, [] => []
  | fuel + 1, c :: t =>
      if isDigitB c then
        let ds := (c :: t).takeWhile isDigitB
        let rest := (c :: t).dropWhile isDigitB
        match rest with
        | ':' :: d :: r2 =>
            if isDigitB d then
              toL "[LINE]" ++ subLineAux fuel ((d :: r2).dropWhile isDigitB)
            else ds ++ subLineAux fuel rest
        | _ => ds ++ subLineAux fuel rest
      else c :: subLineAux fuel t

/-- re.sub replacing ISO timestamps by the [TIMESTAMP] placeholder. -/
def subTsAux : Nat → List Char → List Char
  | 0, s => s
  | _, [] => []
  | fuel + 1, c :: t =>
      match tsMatch (c :: t) with
      | some rest => toL "[TIMESTAMP]" ++ subTsAux fuel rest
      | none => c :: subTsAux fuel t

/-- re.sub replacing 0x-prefixed hex runs by the [HEX] placeholder. -/
def subHexAux : Nat → List Char → List Char
  | 0, s => s
  | _, [] => []
  | fuel + 1, '0' :: 'x' :: t =>
      match t with
      | d :: _ =>
          if isHexDigitLower d then toL "[HEX]" ++ subHexAux fuel (t.dropWhile isHexDigitLower)
          else '0' :: subHexAux fuel ('x' :: t)
      | [] => ['0', 'x']
  | fuel + 1, c :: t => c :: subHexAux fuel t

/-- The normalization pipeline of normalize_error_message: lowercase, then the
four re.sub passes in source order (paths, line-col pairs, timestamps, hex). -/
def normTextC6 (msg : List Char) : List Char :=
  let s1 := subPathAux (lowerL msg).length (lowerL msg)
  let s2 := subLineAux s1.length s1
  let s3 := subTsAux s2.length s2
  subHexAux s3.length s3

/-- The canonical substrings of normalize_error_message, in priority order. -/
def errorPatternsC6 : List (List Char) :=
  [toL "timeout", toL "out of memory", toL "connection refused", toL "permission denied",
   toL "not found", toL "failed to", toL "error:", toL "exception:"]

/-- First pattern in the priority list occurring in the normalized text. -/
def firstMatchingPattern : List (List Char) → List Char → Option (List Char)
  | [], _ => none
  | p :: ps, n => if containsSub p n then some p else firstMatchingPattern ps n

/-- normalize_error_message: empty in, empty out; otherwise normalize and return
the first matching canonical substring, falling back to the first 100
characters of the normalized text. -/
def normalizeErrorMessage (msg : List Char) : List Char :=
  if msg.isEmpty then [] else
  let n := normTextC6 msg
  match firstMatchingPattern errorPatternsC6 n with
  | some p => p
  | none => n.take 100

/-! ### Relational data model (src/app/models.py)

Rows are structures; the database is explicit lists of rows.  Timestamps are
integer seconds, durations exact rationals. -/

/-- Repository row. -/
structure RepositoryR where
  id : Nat
  name : List Char
  slug : List Char
  workspace : List Char
deriving DecidableEq, Repr, Inhabited

/-- Build row (one pipeline run). -/
structure BuildR where
  id : Nat
  repository_id : Nat
  build_number : Nat
  pipeline_uuid : List Char
  commit_hash : List Char
  branch : List Char
  state : List Char
  duration_seconds : Option ℚ
  started_on : Option Int
  completed_on : Option Int
deriving DecidableEq, Repr, Inhabited

/-- Build step row. -/
structure BuildStepR where
  id : Nat
  build_id : Nat
  step_name : List Char
  step_type : List Char
  duration_seconds : Option ℚ
  state : List Char
  max_time_seconds : Option ℚ
  memory_limit_mb : Option Int
  peak_memory_mb : Option Int
  size_factor : Option Int
deriving DecidableEq, Repr, Inhabited

/-- Build failure row. -/
structure BuildFailureR where
  id : Nat
  build_id : Nat
  step_id : Option Nat
  error_message : List Char
  error_pattern : List Char
  failure_type : List Char
  occurred_at : Option Int
deriving DecidableEq, Repr, Inhabited

/-- The relational store. -/
structure DB where
  repositories : List RepositoryR
  builds : List BuildR
  steps : List BuildStepR
  failures : List BuildFailureR
deriving Repr, Inhabited

/-- Sort key embedding a nullable timestamp so that SQL NULLs order below every
value (SQLite treats NULL as smallest, hence last under ORDER BY ... DESC). -/
def keyBot (t : Option Int) : WithBot Int :=
  match t with
  | none => ⊥
  | some v => (v : WithBot Int)

/-- ORDER BY key DESC over rows with a nullable integer key (stable). -/
def sortDescBy {α : Type} (key : α → Option Int) (l : List α) : List α :=
  l.insertionSort (fun a b => keyBot (key b) ≤ keyBot (key a))

/-- The output of sortDescBy is sorted by descending key. -/
theorem sortDescBy_sorted {α : Type} (key : α → Option Int) (l : List α) :
    (sortDescBy key l).Sorted (fun a b => keyBot (key b) ≤ keyBot (key a)) := by
  haveI : IsTotal α (fun a b => keyBot (key b) ≤ keyBot (key a)) :=
    ⟨fun a b => le_total _ _⟩
  haveI : IsTrans α (fun a b => keyBot (key b) ≤ keyBot (key a)) :=
    ⟨fun _ _ _ h1 h2 => le_trans h2 h1⟩
  exact List.sorted_insertionSort _ _

/-- sortDescBy permutes its input, so membership is preserved. -/
theorem mem_sortDescBy {α : Type} {key : α → Option Int} {l : List α} {x : α} :
    x ∈ sortDescBy key l ↔ x ∈ l := List.mem_insertionSort _

/-- Lookup of a build row by primary key (SQL join on build_id). -/
def lookupBuild (db : DB) (bid : Nat) : Option BuildR :=
  db.builds.find? (fun b => b.id == bid)

/-- Lookup of a repository row by primary key (ORM relationship access). -/
def lookupRepo (db : DB) (rid : Nat) : Option RepositoryR :=
  db.repositories.find? (fun r => r.id == rid)

/-! ### Claims C5 and C10: ErrorAnalyzer cross-repository matching
(src/app/analytics/error_analyzer.py lines 53-239) -/

/-- One row of the result of find_other_repos_with_error. -/
structure RepoErrorEntry where
  repository_slug : List Char
  repository_name : List Char
  build_number : Nat
  occurred_at : Option Int
  error_message : Option (List Char)
deriving DecidableEq, Repr, Inhabited

/-- The matching-failures query: join each failure to its build and keep rows of
other repositories whose stored error_pattern equals the signature hash. -/
def matchingFailures (db : DB) (rid : Nat) (h : List Char) : List (BuildFailureR × BuildR) :=
  (db.failures.filterMap (fun f => (lookupBuild db f.build_id).map (fun b => (f, b)))).filter
    (fun fb => fb.2.repository_id != rid && fb.1.error_pattern == h)

/-- The query result ordered by occurred_at descending and limited to 10 rows. -/
def topMatchingFailures (db : DB) (rid : Nat) (h : List Char) : List (BuildFailureR × BuildR) :=
  (sortDescBy (fun fb => fb.1.occurred_at) (matchingFailures db rid h)).take 10

/-- The repos_seen dictionary loop: keep the first entry for each repository
slug, in encounter order. -/
def dedupBySlug : List RepoErrorEntry → List (List Char) → List RepoErrorEntry
  | [], _ => []
  | e :: t, seen =>
      if e.repository_slug ∈ seen then dedupBySlug t seen
      else e :: dedupBySlug t (e.repository_slug :: seen)

/-- Entry constructed from a matched (failure, build) row and its repository. -/
def mkRepoErrorEntry (fb : BuildFailureR × BuildR) (r : RepositoryR) : RepoErrorEntry :=
  { repository_slug := r.slug
    repository_name := r.name
    build_number := fb.2.build_number
    occurred_at := fb.1.occurred_at
    error_message :=
      if fb.1.error_message.isEmpty then none else some (fb.1.error_message.take 200) }

/-- find_other_repos_with_error: empty signature short-circuits to the empty
list; otherwise take the ten most recent matching failures of other
repositories and keep one entry per repository slug.  Rows are resolved to
their repository through the ORM relationship; rows without a repository are
skipped (the store is assumed referentially intact). -/
def findOtherReposWithError (db : DB) (rid : Nat) (h : List Char) : List RepoErrorEntry :=
  if h.isEmpty then [] else
  dedupBySlug
    ((topMatchingFailures db rid h).filterMap
      (fun fb => (lookupRepo db fb.2.repository_id).map (mkRepoErrorEntry fb)))
    []

/-- A known-fix entry of the static lookup table, modelled by its match pattern;
the cause, remediation and link payloads are carried opaquely by the pattern key
since no analyzer logic inspects them. -/
structure KnownFix where
  pattern : List Char
deriving DecidableEq, Repr, Inhabited

/-- match_known_fixes: case-insensitive substring containment of each table
pattern in the log text, returning all matches in table order. -/
def matchKnownFixes (table : List KnownFix) (log : List Char) : List KnownFix :=
  if log.isEmpty then [] else
  table.filter (fun e => containsSub (lowerL e.pattern) (lowerL log))

/-- Pipeline payload as returned by the external pipelines endpoint. -/
structure PipelineData where
  uuid : List Char
  build_number : Nat
  result_name : Option (List Char)
  commit_hash : List Char
deriving DecidableEq, Repr, Inhabited

/-- Step payload as returned by the external steps endpoint (the analyzer reads
the plain state name, not the nested result). -/
structure ClientStepData where
  uuid : List Char
  name : List Char
  state_name : List Char
deriving DecidableEq, Repr, Inhabited

/-- The external pipeline provider for one repository: its pipeline list (most
recent first), the steps of the latest pipeline, the raw log per step uuid, and
the static known-fixes table. -/
structure BitbucketData where
  pipelines : List PipelineData
  steps : List ClientStepData
  logOf : List Char → List Char
  fixesTable : List KnownFix

/-- get_latest_failed_pipeline: the most recent pipeline if its result is
FAILED or ERROR, otherwise nothing. -/
def getLatestFailedPipeline (bb : BitbucketData) : Option PipelineData :=
  match bb.pipelines.head? with
  | none => none
  | some p =>
      if p.result_name == some (toL "FAILED") || p.result_name == some (toL "ERROR") then some p
      else none

/-- One element of the list produced by get_failed_step_logs. -/
structure FailedStepDatum where
  step_name : List Char
  step_uuid : List Char
  log_text : List Char
  error_signature : List Char
  signature_hash : List Char
  known_fixes : List KnownFix
deriving DecidableEq, Repr, Inhabited

/-- get_failed_step_logs: for every step whose state is FAILED or ERROR, fetch
its log (empty when the uuid is missing), extract the error signature and match
the known-fixes table. -/
def getFailedStepLogs (bb : BitbucketData) : List FailedStepDatum :=
  (bb.steps.filter (fun s => s.state_name == toL "FAILED" || s.state_name == toL "ERROR")).map
    (fun s =>
      let log := if s.uuid.isEmpty then [] else bb.logOf s.uuid
      let sig := extractErrorSignature log
      { step_name := s.name
        step_uuid := s.uuid
        log_text := log
        error_signature := sig.1
        signature_hash := sig.2
        known_fixes := matchKnownFixes bb.fixesTable log })

/-- The seen_fix_patterns loop of analyze_latest_failure: keep the first fix per
pattern. -/
def dedupFixes : List KnownFix → List (List Char) → List KnownFix
  | [], _ => []
  | f :: t, seen =>
      if f.pattern ∈ seen then dedupFixes t seen
      else f :: dedupFixes t (f.pattern :: seen)

/-- The failure branch payload of analyze_latest_failure. -/
structure FailureAnalysis where
  repository : List Char
  repository_name : List Char
  pipeline_uuid : List Char
  build_number : Nat
  commit_hash : List Char
  failed_steps : List FailedStepDatum
  error_signature : List Char
  signature_hash : List Char
  known_fixes : List KnownFix
  other_repos : List RepoErrorEntry
  other_repos_count : Nat
deriving DecidableEq, Repr, Inhabited

/-- Outcome of analyze_latest_failure for a repository found in the store. -/
inductive AnalysisOut where
  | okLatestSucceeded
  | uuidMissing
  | noFailedSteps
  | failedWith (info : FailureAnalysis)
deriving DecidableEq, Repr, Inhabited

/-- analyze_latest_failure: short-circuit on a green latest pipeline, otherwise
collect failed-step logs, use the first failed step as the primary signature,
search other repositories for the same hash, and deduplicate known fixes. -/
def analyzeLatestFailure (db : DB) (bb : BitbucketData) (slug : List Char) :
    Option AnalysisOut :=
  match db.repositories.find? (fun r => r.slug == slug) with
  | none => none
  | some repo =>
      match getLatestFailedPipeline bb with
      | none => some .okLatestSucceeded
      | some p =>
          if p.uuid.isEmpty then some .uuidMissing else
          match getFailedStepLogs bb with
          | [] => some .noFailedSteps
          | f0 :: rest =>
              some (.failedWith
                { repository := slug
                  repository_name := repo.name
                  pipeline_uuid := p.uuid
                  build_number := p.build_number
                  commit_hash := p.commit_hash
                  failed_steps := f0 :: rest
                  error_signature := f0.error_signature
                  signature_hash := f0.signature_hash
                  known_fixes := dedupFixes ((f0 :: rest).flatMap (fun d => d.known_fixes)) []
                  other_repos := findOtherReposWithError db repo.id f0.signature_hash
                  other_repos_count :=
                    (findOtherReposWithError db repo.id f0.signature_hash).length })

/-! ### Claim C4: RegressionDetector.detect_build_duration_regression
(src/app/analytics/regression_detector.py lines 13-74) -/

/-- np.median over exact rationals: midpoint of the two central elements of the
ascending sort for even length, the central element for odd length. -/
def medianQ (l : List ℚ) : ℚ :=
  let s := l.insertionSort (fun a b => a ≤ b)
  if l.length % 2 = 1 then s.getD (l.length / 2) 0
  else (s.getD (l.length / 2 - 1) 0 + s.getD (l.length / 2) 0) / 2

/-- The baseline query: successful builds of the repository with known duration
completed strictly before the cutoff, most recent first, limited to 50. -/
def baselineBuilds (db : DB) (rid : Nat) (cutoff : Int) : List BuildR :=
  (sortDescBy (fun b => b.completed_on)
    (db.builds.filter (fun b =>
      b.repository_id == rid && b.state == toL "SUCCESSFUL" &&
      (match b.completed_on with
       | some t => decide (t < cutoff)
       | none => false) &&
      b.duration_seconds.isSome))).take 50

/-- The recent query: successful builds of the repository with known duration
completed at or after the cutoff, most recent first, limited to 50. -/
def recentBuilds (db : DB) (rid : Nat) (cutoff : Int) : List BuildR :=
  (sortDescBy (fun b => b.completed_on)
    (db.builds.filter (fun b =>
      b.repository_id == rid && b.state == toL "SUCCESSFUL" &&
      (match b.completed_on with
       | some t => decide (cutoff ≤ t)
       | none => false) &&
      b.duration_seconds.isSome))).take 50

/-- The fallback pool: the 40 most recent successful builds of the repository
with known duration, with no completion cutoff. -/
def windowBuilds (db : DB) (rid : Nat) : List BuildR :=
  (sortDescBy (fun b => b.completed_on)
    (db.builds.filter (fun b =>
      b.repository_id == rid && b.state == toL "SUCCESSFUL" &&
      b.duration_seconds.isSome))).take 40

/-- One build-duration regression finding.  The note field is attached by the
source to every finding, fallback or not. -/
structure RegressionFinding where
  rtype : List Char
  repository_id : Nat
  baseline_median : ℚ
  recent_median : ℚ
  regression_percent : ℚ
  commit_hash : List Char
  baseline_count : Nat
  recent_count : Nat
  note : List Char
deriving DecidableEq, Repr, Inhabited

/-- The common tail of detect_build_duration_regression: compare the two median
durations against the fixed 20 percent threshold and build the finding.  The
division convention of ℚ gives regression_percent = 0 where Python float
division by a zero baseline median would give infinity. -/
def mkRegression (rid : Nat) (baseline recent : List BuildR) : Option RegressionFinding :=
  let bm := medianQ (baseline.filterMap (fun b => b.duration_seconds))
  let rm := medianQ (recent.filterMap (fun b => b.duration_seconds))
  if rm > bm * (6 / 5 : ℚ) then
    some { rtype := toL "build_duration_regression"
           repository_id := rid
           baseline_median := bm
           recent_median := rm
           regression_percent := (rm - bm) / bm * 100
           commit_hash := (recent.headD default).commit_hash
           baseline_count := baseline.length
           recent_count := recent.length
           note := toL "Computed using an internal split of recent history due to limited baseline history." }
  else none

/-- detect_build_duration_regression: split history at a 14-day cutoff into the
most recent 50 on each side; when either side has fewer than 5 samples fall
back to the most recent 40 successful builds split at the midpoint (first half
recent, second half baseline), giving up entirely below 10 pool builds. -/
def detectBuildDurationRegression (db : DB) (rid : Nat) (now : Int) : Option RegressionFinding :=
  let cutoff := now - 14 * 86400
  let baseline0 := baselineBuilds db rid cutoff
  let recent0 := recentBuilds db rid cutoff
  if baseline0.length < 5 || recent0.length < 5 then
    let window := windowBuilds db rid
    if window.length < 10 then none
    else
      mkRegression rid (window.drop (window.length / 2)) (window.take (window.length / 2))
  else
    mkRegression rid baseline0 recent0

/-! ### Claim C8: RegressionDetector.detect_resource_waste
(src/app/analytics/regression_detector.py lines 127-205) -/

/-- Steps of successful builds of the repository with both memory fields known
(the SQL join and filter of the memory branch). -/
def stepsWithMemory (db : DB) (rid : Nat) : List BuildStepR :=
  db.steps.filter (fun s =>
    (match lookupBuild db s.build_id with
     | some b => b.repository_id == rid && b.state == toL "SUCCESSFUL"
     | none => false) &&
    s.peak_memory_mb.isSome && s.memory_limit_mb.isSome)

/-- Steps of successful builds of the repository with both time fields known
(the SQL join and filter of the time branch). -/
def stepsWithTime (db : DB) (rid : Nat) : List BuildStepR :=
  db.steps.filter (fun s =>
    (match lookupBuild db s.build_id with
     | some b => b.repository_id == rid && b.state == toL "SUCCESSFUL"
     | none => false) &&
    s.duration_seconds.isSome && s.max_time_seconds.isSome)

/-- The step-name keys of the grouping dictionary, in first-occurrence order. -/
def firstOccNames : List BuildStepR → List (List Char) → List (List Char)
  | [], acc => acc.reverse
  | s :: t, acc =>
      if s.step_name ∈ acc then firstOccNames t acc
      else firstOccNames t (s.step_name :: acc)

/-- The group of steps sharing a name. -/
def groupOf (l : List BuildStepR) (nm : List Char) : List BuildStepR :=
  l.filter (fun s => s.step_name == nm)

/-- np.mean over integers; none models the nan of the empty mean. -/
def meanOptI (l : List Int) : Option ℚ :=
  if l.isEmpty then none else some ((l.map (fun v => (v : ℚ))).sum / l.length)

/-- np.mean over rationals; none models the nan of the empty mean. -/
def meanOptQ (l : List ℚ) : Option ℚ :=
  if l.isEmpty then none else some (l.sum / l.length)

/-- Python truthiness filter on an integer field: the comprehension
[s.field for s in group if s.field] keeps known non-zero values only. -/
def truthyI (f : BuildStepR → Option Int) (l : List BuildStepR) : List Int :=
  (l.filterMap f).filter (fun v => v != 0)

/-- Python truthiness filter on a rational field. -/
def truthyQ (f : BuildStepR → Option ℚ) (l : List BuildStepR) : List ℚ :=
  (l.filterMap f).filter (fun v => v != 0)

/-- Python int(): truncation toward zero of a rational. -/
def ratTrunc (q : ℚ) : Int := q.num / (q.den : Int)

/-- One resource-waste finding; avg_used carries avg_peak_mb for memory waste
and avg_duration_seconds for time waste, avg_limit the corresponding ceiling. -/
structure WasteFinding where
  wtype : List Char
  repository_id : Nat
  step_name : List Char
  avg_used : ℚ
  avg_limit : ℚ
  waste_ratio : ℚ
  recommended : Int
deriving DecidableEq, Repr, Inhabited

/-- The memory-waste test of one step-name group: at least 5 samples and mean
limit above twice mean peak (means over known non-zero values; nan comparisons
are false), reporting the waste ratio and a recommended limit of 1.5 times the
mean peak truncated to an integer. -/
def memWasteForGroup (rid : Nat) (nm : List Char) (g : List BuildStepR) : Option WasteFinding :=
  if g.length < 5 then none else
  match meanOptI (truthyI (fun s => s.peak_memory_mb) g),
        meanOptI (truthyI (fun s => s.memory_limit_mb) g) with
  | some aP, some aL =>
      if aL > aP * 2 then
        some { wtype := toL "memory_waste"
               repository_id := rid
               step_name := nm
               avg_used := aP
               avg_limit := aL
               waste_ratio := if aP > 0 then aL / aP else 0
               recommended := ratTrunc (aP * (3 / 2 : ℚ)) }
      else none
  | _, _ => none

/-- The time-waste test of one step-name group, the same logic on duration
against the configured max time. -/
def timeWasteForGroup (rid : Nat) (nm : List Char) (g : List BuildStepR) : Option WasteFinding :=
  if g.length < 5 then none else
  match meanOptQ (truthyQ (fun s => s.duration_seconds) g),
        meanOptQ (truthyQ (fun s => s.max_time_seconds) g) with
  | some aD, some aM =>
      if aM > aD * 2 then
        some { wtype := toL "time_waste"
               repository_id := rid
               step_name := nm
               avg_used := aD
               avg_limit := aM
               waste_ratio := if aD > 0 then aM / aD else 0
               recommended := ratTrunc (aD * (3 / 2 : ℚ)) }
      else none
  | _, _ => none

/-- detect_resource_waste: run the memory detector and the time detector over
the per-name groups independently and keep the findings of both. -/
def detectResourceWaste (db : DB) (rid : Nat) : List WasteFinding :=
  let memSteps := stepsWithMemory db rid
  let timeSteps := stepsWithTime db rid
  ((firstOccNames memSteps []).filterMap
      (fun nm => memWasteForGroup rid nm (groupOf memSteps nm))) ++
    ((firstOccNames timeSteps []).filterMap
      (fun nm => timeWasteForGroup rid nm (groupOf timeSteps nm)))

/-! ### Claim C3: DiagnosticEngine.save_diagnostics
(src/app/diagnostics.py lines 212-234) -/

/-- Stored diagnostic row (acknowledged defaults to false on insert). -/
structure DiagRow where
  repository_id : Option Nat
  diagnostic_type : List Char
  severity : List Char
  title : List Char
  message : List Char
  acknowledged : Bool
deriving DecidableEq, Repr, Inhabited

/-- One diagnostic dict produced by generate_diagnostics. -/
structure DiagDict where
  repository_id : Option Nat
  dtype : List Char
  severity : List Char
  title : List Char
  message : List Char
deriving DecidableEq, Repr, Inhabited

/-- The existence filter of save_diagnostics: same repository, type and title.
The acknowledged flag is not part of the filter. -/
def diagMatches (d : DiagDict) (row : DiagRow) : Bool :=
  row.repository_id == d.repository_id && row.diagnostic_type == d.dtype &&
    row.title == d.title

/-- The row inserted for a dict (acknowledged takes its column default). -/
def mkDiagRow (d : DiagDict) : DiagRow :=
  ⟨d.repository_id, d.dtype, d.severity, d.title, d.message, false⟩

/-- One iteration of the save loop: skip when a matching row exists, else
append the new row. -/
def saveOne (rows : List DiagRow) (d : DiagDict) : List DiagRow :=
  if rows.any (diagMatches d) then rows else rows ++ [mkDiagRow d]

/-- save_diagnostics: fold the save loop over the batch (the session flushes
pending inserts, so rows inserted earlier in the same batch are visible to
later existence checks). -/
def saveDiagnostics (rows : List DiagRow) (ds : List DiagDict) : List DiagRow :=
  ds.foldl saveOne rows

/-! ### Claim C9: AISuggestionGenerator.enhance_diagnostic
(src/app/ai/suggestion_generator.py lines 10-127) -/

/-- The AI-related configuration fields read by the generator constructor. -/
structure AIConfig where
  use_ai_suggestions : Bool
  ai_provider : List Char
  openai_api_key : Option (List Char)
  huggingface_api_key : Option (List Char)
deriving DecidableEq, Repr, Inhabited

/-- The use_ai flag after the constructor: the toggle is on, the provider is
not none, and a supported provider branch was taken (openai requires a key). -/
def effectiveUseAI (c : AIConfig) : Bool :=
  (c.use_ai_suggestions && c.ai_provider != toL "none") &&
    (if c.ai_provider == toL "openai" && c.openai_api_key.isSome then true
     else if c.ai_provider == toL "huggingface" then true
     else false)

/-- The outcome of the external inference HTTP call: the request raised, or a
response with a status code and, for JSON-list bodies, the generated_text of
each element (none models a non-list body). -/
inductive HttpOutcome where
  | raised
  | response (status : Nat) (body : Option (List (List Char)))
deriving DecidableEq, Repr, Inhabited

/-- The first sentence of the generated text: the prefix before the first dot,
with a dot appended. -/
def firstSentence (s : List Char) : List Char :=
  s.takeWhile (fun ch => ch != '.') ++ ['.']

/-- query_huggingface: every exception is swallowed; only a 200 response with
a non-empty JSON list and non-empty generated_text yields a suggestion. -/
def queryHuggingface (o : HttpOutcome) : Option (List Char) :=
  match o with
  | .raised => none
  | .response status body =>
      if status == 200 then
        match body with
        | some (gt :: _) => if gt.isEmpty then none else some (firstSentence gt)
        | _ => none
      else none

/-- The message-bearing part of a diagnostic dict as read by the enhancer. -/
structure DiagnosticDict where
  dtype : List Char
  message : List Char
deriving DecidableEq, Repr, Inhabited

/-- generate_suggestion: dispatch on the provider; the openai path is
abstracted by its swallowed-exception result oa. -/
def suggestionOf (c : AIConfig) (hf : HttpOutcome) (oa : Option (List Char)) :
    Option (List Char) :=
  if c.ai_provider == toL "huggingface" then queryHuggingface hf
  else if c.ai_provider == toL "openai" then oa
  else none

/-- enhance_diagnostic: pass the message through unless AI is enabled and the
provider call produced a suggestion, in which case the suggestion is appended. -/
def enhanceDiagnostic (c : AIConfig) (hf : HttpOutcome) (oa : Option (List Char))
    (d : DiagnosticDict) : List Char :=
  if !(effectiveUseAI c) then d.message else
  match suggestionOf c hf oa with
  | some s => d.message ++ toL "\n\n💡 Suggestion: " ++ s
  | none => d.message

/-! ### Claim C7: step ingestion in DataCollector.collect_builds
(src/app/collector.py lines 94-185) -/

/-- Provider step payload as read by collect_builds; raw_log none models a
log-fetch exception (degrading to an empty excerpt). -/
structure StepData where
  uuid : Option (List Char)
  name : List Char
  stype : List Char
  started_on : Option Int
  completed_on : Option Int
  state_result_name : Option (List Char)
  state_name : Option (List Char)
  error_message : List Char
  raw_log : Option (List Char)
  size : Option Int
deriving DecidableEq, Repr, Inhabited

/-- Python or-chaining over possibly missing strings: first truthy value, else
empty. -/
def pyOrStr : List (Option (List Char)) → List Char
  | [] => []
  | x :: rest =>
      match x with
      | some s => if s.isEmpty then pyOrStr rest else s
      | none => pyOrStr rest

/-- ASCII upper-casing (str.upper). -/
def upperL (s : List Char) : List Char := s.map Char.toUpper

/-- The step state stored by ingestion: the result name, else the plain state
name, else empty, upper-cased. -/
def stepStateOf (sd : StepData) : List Char :=
  upperL (pyOrStr [sd.state_result_name, sd.state_name])

/-- The collector's failure-type classifier (fixed keyword precedence). -/
def classifyFailure (msg : List Char) : List Char :=
  if msg.isEmpty then toL "unknown" else
  let l := lowerL msg
  if containsSub (toL "timeout") l then toL "timeout"
  else if containsSub (toL "memory") l || containsSub (toL "oom") l then toL "memory_error"
  else if containsSub (toL "test") l && containsSub (toL "fail") l then toL "test_failure"
  else if containsSub (toL "compile") l || containsSub (toL "syntax") l then
    toL "compilation_error"
  else if containsSub (toL "connection") l || containsSub (toL "network") l then
    toL "network_error"
  else toL "unknown"

/-- Up to eight keyword-bearing lines, scanning in the given order, each
stripped (the break fires once eight are collected). -/
def firstMatchingLines : List (List Char) → Nat → List (List Char)
  | [], _ => []
  | ln :: rest, k =>
      if lineHasErrorKeyword ln then
        if k ≤ 1 then [pyStrip ln]
        else pyStrip ln :: firstMatchingLines rest (k - 1)
      else firstMatchingLines rest k

/-- The best-effort log excerpt of a failed step: last 2000 characters of the
fetched log, non-blank lines, the last eight keyword-bearing lines (or the
last twelve non-blank lines when none match), joined with newlines. -/
def mkLogExcerpt (sd : StepData) : List Char :=
  match sd.uuid with
  | none => []
  | some u =>
      if u.isEmpty then [] else
      match sd.raw_log with
      | none => []
      | some raw =>
          let tail := raw.drop (raw.length - 2000)
          let lines := (splitLines tail).filter (fun ln => !(pyStrip ln).isEmpty)
          let interesting := (firstMatchingLines lines.reverse 8).reverse
          let joined := joinNL interesting
          if joined.isEmpty then joinNL (lines.drop (lines.length - 12)) else joined

/-- The failure row fields created for a failed step. -/
structure NewFailure where
  error_message : List Char
  error_pattern : List Char
  failure_type : List Char
  occurred_at : Int
deriving DecidableEq, Repr, Inhabited

/-- The per-step result of ingestion: the stored step state and excerpt, and
at most one failure row, present exactly for the FAILED state. -/
structure IngestedStep where
  step_name : List Char
  state : List Char
  duration_seconds : Option Int
  log_excerpt : Option (List Char)
  failure : Option NewFailure
deriving DecidableEq, Repr, Inhabited

/-- The step duration from the provider timestamps, in seconds. -/
def stepDuration (sd : StepData) : Option Int :=
  match sd.started_on, sd.completed_on with
  | some s, some e => some (e - s)
  | _, _ => none

/-- Ingestion of one step by collect_builds: the step row always, plus a
failure row if and only if the computed state is FAILED; now stands for
datetime.now, the occurred_at fallback when the step has no completion time. -/
def ingestStep (now : Int) (sd : StepData) : IngestedStep :=
  let st := stepStateOf sd
  if st = toL "FAILED" then
    let excerpt := mkLogExcerpt sd
    let emsg :=
      if sd.error_message.isEmpty && !excerpt.isEmpty then excerpt.take 1000
      else sd.error_message
    let sig := extractErrorSignature (if excerpt.isEmpty then emsg else excerpt)
    let pat := normalizeErrorMessage emsg
    { step_name := sd.name
      state := st
      duration_seconds := stepDuration sd
      log_excerpt := if excerpt.isEmpty then none else some (excerpt.take 4000)
      failure := some
        { error_message := emsg
          error_pattern := if sig.2.isEmpty then pat else sig.2
          failure_type := classifyFailure emsg
          occurred_at := (sd.completed_on.getD now) } }
  else
    { step_name := sd.name
      state := st
      duration_seconds := stepDuration sd
      log_excerpt := none
      failure := none }

/-- Ingestion of all steps of one pipeline run: one result per step. -/
def collectSteps (now : Int) (sds : List StepData) : List IngestedStep :=
  sds.map (ingestStep now)

/-! ### Helper lemmas -/

/-- Deduplication by slug yields a sublist of its input. -/
theorem dedupBySlug_sublist :
    ∀ (l : List RepoErrorEntry) (seen : List (List Char)), List.Sublist (dedupBySlug l seen) l
  | [], _ => .slnil
  | e :: t, seen => by
      simp only [dedupBySlug]
      split
      · exact (dedupBySlug_sublist t seen).cons e
      · exact (dedupBySlug_sublist t _).cons₂ e

/-- No entry surviving deduplication carries a slug already seen. -/
theorem dedupBySlug_not_mem_seen :
    ∀ (l : List RepoErrorEntry) (seen : List (List Char)) (e : RepoErrorEntry),
      e ∈ dedupBySlug l seen → e.repository_slug ∉ seen := by
  intro l
  induction l with
  | nil => intro seen e he; cases he
  | cons a t ih =>
      intro seen e he
      simp only [dedupBySlug] at he
      split at he
      · exact ih seen e he
      · rcases List.mem_cons.mp he with rfl | hmem
        · assumption
        · exact fun hc => ih _ e hmem (List.mem_cons_of_mem _ hc)

/-- Deduplication by slug leaves pairwise distinct repository slugs. -/
theorem dedupBySlug_pairwise :
    ∀ (l : List RepoErrorEntry) (seen : List (List Char)),
      (dedupBySlug l seen).Pairwise (fun a b => a.repository_slug ≠ b.repository_slug) := by
  intro l
  induction l with
  | nil => intro seen; exact List.Pairwise.nil
  | cons a t ih =>
      intro seen
      simp only [dedupBySlug]
      split
      · exact ih seen
      · refine List.Pairwise.cons (fun b hb => ?_) (ih _)
        have := dedupBySlug_not_mem_seen t (a.repository_slug :: seen) b hb
        exact fun hc => this (by simp [hc])

/-- The save loop skips a dict with a matching stored row. -/
theorem saveOne_skip {rows : List DiagRow} {d : DiagDict}
    (h : ∃ row ∈ rows, diagMatches d row = true) : saveOne rows d = rows := by
  rcases h with ⟨r, hr, hm⟩
  rw [saveOne, if_pos (List.any_eq_true.mpr ⟨r, hr, hm⟩)]

/-- The save loop appends the fresh row when no stored row matches. -/
theorem saveOne_insert {rows : List DiagRow} {d : DiagDict}
    (h : ¬∃ row ∈ rows, diagMatches d row = true) :
    saveOne rows d = rows ++ [mkDiagRow d] := by
  rw [saveOne, if_neg]
  intro hc
  exact h (List.any_eq_true.mp hc)

/-- After one save step a matching row for the dict exists. -/
theorem saveOne_matched (rows : List DiagRow) (d : DiagDict) :
    ∃ row ∈ saveOne rows d, diagMatches d row = true := by
  by_cases h : ∃ row ∈ rows, diagMatches d row = true
  · rw [saveOne_skip h]
    exact h
  · rw [saveOne_insert h]
    refine ⟨mkDiagRow d, by simp, ?_⟩
    simp [diagMatches, mkDiagRow]

/-- One save step only ever appends. -/
theorem saveOne_isPrefix (rows : List DiagRow) (d : DiagDict) :
    List.IsPrefix rows (saveOne rows d) := by
  rw [saveOne]
  split
  · exact List.prefix_refl _
  · exact List.prefix_append _ _

/-- The whole save only ever appends: the stored rows survive unchanged. -/
theorem saveDiagnostics_isPrefix (rows : List DiagRow) (ds : List DiagDict) :
    List.IsPrefix rows (saveDiagnostics rows ds) := by
  induction ds generalizing rows with
  | nil => exact List.prefix_refl _
  | cons d rest ih => exact (saveOne_isPrefix rows d).trans (ih (saveOne rows d))

/-- Membership in the store is preserved by the save. -/
theorem mem_saveDiagnostics {row : DiagRow} {rows : List DiagRow} (ds : List DiagDict)
    (h : row ∈ rows) : row ∈ saveDiagnostics rows ds :=
  (saveDiagnostics_isPrefix rows ds).subset h

/-- After a save, every dict of the batch has a matching stored row. -/
theorem saveDiagnostics_all_matched (ds : List DiagDict) (rows : List DiagRow) :
    ∀ d ∈ ds, ∃ row ∈ saveDiagnostics rows ds, diagMatches d row = true := by
  induction ds generalizing rows with
  | nil => intro d hd; cases hd
  | cons d0 rest ih =>
      intro d hd
      rcases List.mem_cons.mp hd with rfl | hmem
      · rcases saveOne_matched rows d with ⟨r, hr, hm⟩
        exact ⟨r, mem_saveDiagnostics rest hr, hm⟩
      · exact ih (saveOne rows d0) d hmem

/-- When every dict of the batch already has a matching stored row, the save
inserts nothing. -/
theorem saveDiagnostics_stable {rows : List DiagRow} {ds : List DiagDict}
    (h : ∀ d ∈ ds, ∃ row ∈ rows, diagMatches d row = true) :
    saveDiagnostics rows ds = rows := by
  induction ds generalizing rows with
  | nil => rfl
  | cons d rest ih =>
      have h0 : saveOne rows d = rows := saveOne_skip (h d (by simp))
      show List.foldl saveOne (saveOne rows d) rest = rows
      rw [h0]
      exact ih (fun d' hd' => h d' (by simp [hd']))

/-- If no pattern in the list occurs in the text, the priority scan returns none. -/
theorem firstMatchingPattern_eq_none {ps : List (List Char)} {n : List Char}
    (h : ∀ p ∈ ps, containsSub p n = false) : firstMatchingPattern ps n = none := by
  induction ps with
  | nil => rfl
  | cons p ps ih =>
      simp only [firstMatchingPattern, h p (by simp)]
      exact ih (fun q hq => h q (by simp [hq]))

end CICDMetrics

namespace CICDMetrics

set_option maxRecDepth 100000

/-! ### Claim C1 theorems -/

/-- Claim C1 counterexample: for a reference date of March 15, the claim says the
computed period is Feb 28 to Mar 28; the code computes Jan 28 to Feb 28 (it
takes the most recent 28th on or before the reference as the period end and the
28th one month earlier as the start). -/
theorem c1_counterexample :
    period28 ⟨2026, 3, 15⟩ ≠ ((2026, 2), (2026, 3)) ∧
    period28 ⟨2026, 3, 15⟩ = ((2026, 1), (2026, 2)) := by
  constructor
  · decide
  · decide

/-- Claim C1 (amended): for every reference date the period end is the 28th of
the reference month, rolled back one calendar month when the reference
day-of-month is below 28, and the period start is the 28th of the month before
the end; the aggregation window is the half-open interval from midnight of the
start 28th to midnight after the end 28th, so both boundary days are fully
included.  In particular March 15 yields Jan 28 to Feb 28 and March 30 yields
Feb 28 to Mar 28. -/
theorem c1_window_rule :
    (∀ ref : YMD,
      (period28 ref).2 =
        (if ref.day < 28 then prevMonth ref.year ref.month else (ref.year, ref.month)) ∧
      (period28 ref).1 = prevMonth (period28 ref).2.1 (period28 ref).2.2 ∧
      ∀ t : Int, inWindow28 ref t =
        (decide (sec28 (period28 ref).1 ≤ t) && decide (t < sec28 (period28 ref).2 + 86400))) ∧
    period28 ⟨2026, 3, 15⟩ = ((2026, 1), (2026, 2)) ∧
    period28 ⟨2026, 3, 30⟩ = ((2026, 2), (2026, 3)) ∧
    inWindow28 ⟨2026, 3, 30⟩ (sec28 (2026, 2)) = true ∧
    inWindow28 ⟨2026, 3, 30⟩ (sec28 (2026, 3) + 86399) = true ∧
    inWindow28 ⟨2026, 3, 30⟩ (sec28 (2026, 3) + 86400) = false := by
  refine ⟨fun ref => ⟨rfl, rfl, fun t => rfl⟩, by decide, by decide, by decide, by decide, by decide⟩

/-! ### Claim C2 theorems -/

/-- Claim C2 counterexample: the non-empty log text "all good" has zero lines
containing an error keyword, yet extract_error_signature returns the SHA-1 hex
digest of the empty string as the hash, not the empty string. -/
theorem c2_counterexample :
    extractErrorSignature (toL "all good") ≠ (toL "", toL "") ∧
    extractErrorSignature (toL "all good") =
      ([], toL "da39a3ee5e6b4b0d3255bfef95601890afd80709") := by
  constructor
  · decide
  · decide

/-- Claim C2 (amended): for every log text with zero keyword-bearing lines the
signature text is empty, and the hash is empty for empty input but is the SHA-1
hex digest of the empty string (da39a3ee...) for non-empty input. -/
theorem c2_extract_no_keyword :
    (∀ log : List Char, (∀ l ∈ splitLines log, lineHasErrorKeyword l = false) →
      extractErrorSignature log =
        ([], if log.isEmpty then [] else sha1Hex (utf8Encode []))) ∧
    sha1Hex (utf8Encode []) = toL "da39a3ee5e6b4b0d3255bfef95601890afd80709" := by
  constructor
  · intro log h
    by_cases hlog : log.isEmpty
    · simp [extractErrorSignature, hlog]
    · have hfil : (splitLines log).filter lineHasErrorKeyword = [] :=
        List.filter_eq_nil_iff.mpr (fun l hl => by simp [h l hl])
      simp [extractErrorSignature, hlog, hfil, joinNL]
  · decide

/-- Claim C2 witness: the amended theorem applied to the concrete no-keyword
log "all good". -/
theorem c2_extract_no_keyword_witness :
    extractErrorSignature (toL "all good") =
      ([], if (toL "all good").isEmpty then [] else sha1Hex (utf8Encode [])) :=
  c2_extract_no_keyword.1 (toL "all good") (by decide)

/-! ### Claim C6 theorems -/

/-- Claim C6 counterexample: the raw text "/timeout permission denied" contains
both the substrings timeout and permission denied, but path normalization
rewrites /timeout into the [PATH] placeholder before the priority scan, so
normalize_error_message returns "permission denied" rather than "timeout". -/
theorem c6_counterexample :
    containsSub (toL "timeout") (toL "/timeout permission denied") = true ∧
    containsSub (toL "permission denied") (toL "/timeout permission denied") = true ∧
    normalizeErrorMessage (toL "/timeout permission denied") = toL "permission denied" ∧
    toL "permission denied" ≠ toL "timeout" := by
  refine ⟨by decide, by decide, by decide, by decide⟩

/-- Claim C6 (amended): normalize_error_message tests the normalized text (after
lowercasing and placeholder substitution) against the canonical substrings in
fixed priority order and returns the first match; whenever the normalized text
still contains "timeout" the result is "timeout" regardless of other matches;
when no canonical substring occurs in the normalized text the result is the
first 100 characters of the normalized text.  The priority guarantee holds for
the normalized text, not for the raw message, since the path, line, timestamp
and hex placeholders may destroy keyword occurrences. -/
theorem c6_priority_first_match :
    ∀ msg : List Char,
      (containsSub (toL "timeout") (normTextC6 msg) = true →
        normalizeErrorMessage msg = toL "timeout") ∧
      (∀ p, firstMatchingPattern errorPatternsC6 (normTextC6 msg) = some p →
        normalizeErrorMessage msg = p) ∧
      ((∀ p ∈ errorPatternsC6, containsSub p (normTextC6 msg) = false) →
        normalizeErrorMessage msg = (normTextC6 msg).take 100) := by
  intro msg
  by_cases hmsg : msg.isEmpty
  · have hnil : msg = [] := by simpa using hmsg
    subst hnil
    refine ⟨fun h => absurd h (by decide), fun p hp => ?_, fun _ => rfl⟩
    have hnone : firstMatchingPattern errorPatternsC6 (normTextC6 []) = none := by decide
    simp [hnone] at hp
  · refine ⟨fun h => ?_, fun p hp => ?_, fun h => ?_⟩
    · simp [normalizeErrorMessage, hmsg, errorPatternsC6, firstMatchingPattern, h]
    · simp [normalizeErrorMessage, hmsg, hp]
    · simp [normalizeErrorMessage, hmsg, firstMatchingPattern_eq_none h]

/-- Every row selected by the match query is a failure of another repository
whose stored error_pattern equals the queried hash. -/
theorem mem_matchingFailures {db : DB} {rid : Nat} {h : List Char}
    {fb : BuildFailureR × BuildR} (hm : fb ∈ matchingFailures db rid h) :
    fb.1.error_pattern = h ∧ fb.2.repository_id ≠ rid := by
  have hcond := List.of_mem_filter hm
  have h1 : (fb.2.repository_id != rid) = true ∧ (fb.1.error_pattern == h) = true := by
    simpa [Bool.and_eq_true] using hcond
  exact ⟨eq_of_beq h1.2, by simpa using h1.1⟩

/-! ### Concrete example store and provider used by the witnesses -/

/-- Example repository A (the one under analysis). -/
def exRepoA : RepositoryR := ⟨1, toL "Repo A", toL "repo-a", toL "ws"⟩

/-- Example repository B (the other repository sharing the failure). -/
def exRepoB : RepositoryR := ⟨2, toL "Repo B", toL "repo-b", toL "ws"⟩

/-- Example failed build in repository B. -/
def exBuildB : BuildR :=
  ⟨10, 2, 7, toL "uuidb", toL "cafebabe", toL "main", toL "FAILED", some 100, some 0, some 1000⟩

/-- Example stored failure of repository B with error_pattern abc123. -/
def exFailB : BuildFailureR :=
  ⟨100, 10, none, toL "error: boom", toL "abc123", toL "unknown", some 1000⟩

/-- Example store with two repositories and one recorded failure. -/
def exDB : DB := ⟨[exRepoA, exRepoB], [exBuildB], [], [exFailB]⟩

/-- Example provider data: the latest pipeline of repository A failed with one
failed step. -/
def exBB : BitbucketData :=
  { pipelines := [⟨toL "puuid", 42, some (toL "FAILED"), toL "deadbeef"⟩]
    steps := [⟨toL "suuid", toL "test", toL "FAILED"⟩]
    logOf := fun _ => toL "error: boom"
    fixesTable := [] }

/-- The failure-analysis payload produced on the example store and provider. -/
def exInfo : FailureAnalysis :=
  match analyzeLatestFailure exDB exBB (toL "repo-a") with
  | some (.failedWith i) => i
  | _ => default

/-! ### Claim C10 theorem -/

/-- Claim C10: an empty signature hash short-circuits find_other_repos_with_error
to the empty list for every store, and any non-empty query only ever selects
failures whose stored error_pattern equals the queried hash, so failures with an
empty error_pattern are never reported as cross-repository matches. -/
theorem c10_empty_hash_short_circuit :
    (∀ (db : DB) (rid : Nat), findOtherReposWithError db rid [] = []) ∧
    (∀ (db : DB) (rid : Nat) (h : List Char) (fb : BuildFailureR × BuildR),
      fb ∈ matchingFailures db rid h → fb.1.error_pattern = h ∧ fb.2.repository_id ≠ rid) :=
  ⟨fun _ _ => rfl, fun _ _ _ _ hm => mem_matchingFailures hm⟩

/-- Claim C10 witness: the theorem applied to a concrete store and a concrete
member of the match query. -/
theorem c10_empty_hash_short_circuit_witness :
    findOtherReposWithError exDB 1 [] = [] ∧
    ((exFailB, exBuildB).1.error_pattern = toL "abc123" ∧
      (exFailB, exBuildB).2.repository_id ≠ 1) :=
  ⟨c10_empty_hash_short_circuit.1 exDB 1,
   c10_empty_hash_short_circuit.2 exDB 1 (toL "abc123") (exFailB, exBuildB) (by decide)⟩

/-! ### Claim C5 theorems -/

/-- Claim C5: when the latest failed pipeline is analyzed, the representative
signature is the first failed step's signature hash and the cross-repository
list is exactly find_other_repos_with_error on it; and for every non-empty hash
that function returns at most ten entries, one per repository slug, ordered
most recent first, each derived from a failure of another repository whose
stored error_pattern equals the hash exactly. -/
theorem c5_cross_repo_search :
    (∀ (db : DB) (bb : BitbucketData) (slug : List Char) (info : FailureAnalysis)
        (repo : RepositoryR),
      db.repositories.find? (fun r => r.slug == slug) = some repo →
      analyzeLatestFailure db bb slug = some (.failedWith info) →
      info.failed_steps = getFailedStepLogs bb ∧
      info.failed_steps ≠ [] ∧
      info.signature_hash = (info.failed_steps.headD default).signature_hash ∧
      info.other_repos = findOtherReposWithError db repo.id info.signature_hash) ∧
    (∀ (db : DB) (rid : Nat) (h : List Char), h ≠ [] →
      (findOtherReposWithError db rid h).length ≤ 10 ∧
      (findOtherReposWithError db rid h).Pairwise
        (fun a b => a.repository_slug ≠ b.repository_slug) ∧
      (findOtherReposWithError db rid h).Sorted
        (fun a b => keyBot b.occurred_at ≤ keyBot a.occurred_at) ∧
      (∀ e ∈ findOtherReposWithError db rid h, ∃ fb,
        fb ∈ matchingFailures db rid h ∧
        fb.2.repository_id ≠ rid ∧ fb.1.error_pattern = h ∧
        ∃ r, lookupRepo db fb.2.repository_id = some r ∧ e = mkRepoErrorEntry fb r)) := by
  constructor
  · intro db bb slug info repo hfind hana
    rw [analyzeLatestFailure, hfind] at hana
    split at hana
    · cases hana
    · rename_i repo2 heq
      injection heq with heq
      subst heq
      split at hana
      · exact absurd hana (by simp)
      · split at hana
        · exact absurd hana (by simp)
        · split at hana
          · exact absurd hana (by simp)
          · rename_i f0 rest hfs
            rw [Option.some.injEq] at hana
            injection hana with hana
            subst hana
            exact ⟨by rw [hfs], by simp, rfl, rfl⟩
  · intro db rid h hne
    have hemp : ¬(h.isEmpty = true) := by simpa using hne
    have hform : findOtherReposWithError db rid h =
        dedupBySlug
          ((topMatchingFailures db rid h).filterMap
            (fun fb => (lookupRepo db fb.2.repository_id).map (mkRepoErrorEntry fb))) [] := by
      rw [findOtherReposWithError, if_neg hemp]
    refine ⟨?_, ?_, ?_, ?_⟩
    · rw [hform]
      calc (dedupBySlug _ []).length
          ≤ ((topMatchingFailures db rid h).filterMap _).length :=
            (dedupBySlug_sublist _ _).length_le
        _ ≤ (topMatchingFailures db rid h).length := List.length_filterMap_le _ _
        _ ≤ 10 := by
            rw [topMatchingFailures]
            exact List.length_take_le 10 _
    · rw [hform]; exact dedupBySlug_pairwise _ _
    · rw [hform]
      have htop : (topMatchingFailures db rid h).Pairwise
          (fun a b => keyBot b.1.occurred_at ≤ keyBot a.1.occurred_at) :=
        (sortDescBy_sorted _ _).sublist (List.take_sublist _ _)
      have hentries : (((topMatchingFailures db rid h).filterMap
          (fun fb => (lookupRepo db fb.2.repository_id).map (mkRepoErrorEntry fb)))).Pairwise
          (fun a b => keyBot b.occurred_at ≤ keyBot a.occurred_at) := by
        rw [List.pairwise_filterMap]
        refine htop.imp ?_
        intro a b hab x hx y hy
        have hx2 : x.occurred_at = a.1.occurred_at := by
          rcases Option.map_eq_some'.mp hx with ⟨r, _, rfl⟩
          rfl
        have hy2 : y.occurred_at = b.1.occurred_at := by
          rcases Option.map_eq_some'.mp hy with ⟨r, _, rfl⟩
          rfl
        rw [hx2, hy2]
        exact hab
      exact hentries.sublist (dedupBySlug_sublist _ _)
    · intro e he
      rw [hform] at he
      have he2 := (dedupBySlug_sublist _ []).mem he
      rcases List.mem_filterMap.mp he2 with ⟨fb, hfb, hmap⟩
      rcases Option.map_eq_some'.mp hmap with ⟨r, hr, hmk⟩
      have hfb2 : fb ∈ sortDescBy (fun fb => fb.1.occurred_at) (matchingFailures db rid h) := by
        rw [topMatchingFailures] at hfb
        exact (List.take_sublist 10 _).mem hfb
      have hmem : fb ∈ matchingFailures db rid h := mem_sortDescBy.mp hfb2
      have hc := mem_matchingFailures hmem
      exact ⟨fb, hmem, hc.2, hc.1, r, hr, hmk.symm⟩

/-! ### Claim C4 theorems -/

/-- Claim C4: the detector flags exactly when the recent median exceeds the
baseline median times 1.2, reporting the percentage regression, the most recent
build's commit, and both sample counts; the primary sets are the most recent 50
successful builds with known duration on each side of the 14-day cutoff; if
either has fewer than 5 samples it falls back to the most recent 40 successful
builds split at the midpoint (first half recent, second half baseline), and
returns nothing when the fallback pool has fewer than 10 builds. -/
theorem c4_duration_regression :
    (∀ (rid : Nat) (baseline recent : List BuildR),
      ((mkRegression rid baseline recent).isSome ↔
        medianQ (recent.filterMap (fun b => b.duration_seconds)) >
          medianQ (baseline.filterMap (fun b => b.duration_seconds)) * (6 / 5 : ℚ)) ∧
      (∀ f, mkRegression rid baseline recent = some f →
        f.regression_percent =
          (medianQ (recent.filterMap (fun b => b.duration_seconds)) -
            medianQ (baseline.filterMap (fun b => b.duration_seconds))) /
            medianQ (baseline.filterMap (fun b => b.duration_seconds)) * 100 ∧
        f.commit_hash = (recent.headD default).commit_hash ∧
        f.baseline_count = baseline.length ∧
        f.recent_count = recent.length)) ∧
    (∀ (db : DB) (rid : Nat) (now : Int),
      (5 ≤ (baselineBuilds db rid (now - 14 * 86400)).length →
        5 ≤ (recentBuilds db rid (now - 14 * 86400)).length →
        detectBuildDurationRegression db rid now =
          mkRegression rid (baselineBuilds db rid (now - 14 * 86400))
            (recentBuilds db rid (now - 14 * 86400))) ∧
      (((baselineBuilds db rid (now - 14 * 86400)).length < 5 ∨
          (recentBuilds db rid (now - 14 * 86400)).length < 5) →
        ((windowBuilds db rid).length < 10 →
          detectBuildDurationRegression db rid now = none) ∧
        (10 ≤ (windowBuilds db rid).length →
          detectBuildDurationRegression db rid now =
            mkRegression rid ((windowBuilds db rid).drop ((windowBuilds db rid).length / 2))
              ((windowBuilds db rid).take ((windowBuilds db rid).length / 2))))) := by
  constructor
  · intro rid baseline recent
    constructor
    · rw [mkRegression]
      split
      · rename_i hgt
        simp [hgt]
      · rename_i hle
        simp [hle]
    · intro f hf
      rw [mkRegression] at hf
      split at hf
      · rw [Option.some.injEq] at hf
        subst hf
        exact ⟨rfl, rfl, rfl, rfl⟩
      · cases hf
  · intro db rid now
    constructor
    · intro h5b h5r
      simp only [detectBuildDurationRegression]
      split
      · rename_i hcond
        exfalso
        simp only [Bool.or_eq_true, decide_eq_true_eq] at hcond
        omega
      · rfl
    · intro hlt
      have hcond :
          (decide ((baselineBuilds db rid (now - 14 * 86400)).length < 5) ||
            decide ((recentBuilds db rid (now - 14 * 86400)).length < 5)) = true := by
        simp only [Bool.or_eq_true, decide_eq_true_eq]
        exact hlt
      constructor
      · intro h10
        simp only [detectBuildDurationRegression]
        rw [if_pos hcond, if_pos (by simpa using h10)]
      · intro h10
        simp only [detectBuildDurationRegression]
        rw [if_pos hcond, if_neg (by simp; omega)]

/-- Example builder for successful builds of repository 1 completing on the
given day with the given duration. -/
def mkB (i day : Nat) (dur : ℚ) : BuildR :=
  ⟨i, 1, i, toL "u", toL "c0ffee", toL "main", toL "SUCCESSFUL", some dur, some 0,
   some (86400 * day)⟩

/-- Example store with 5 baseline builds of duration 100 and 5 recent builds of
duration 130 around a 14-day cutoff at day 6. -/
def exDB4 : DB :=
  ⟨[exRepoA],
   [mkB 1 1 100, mkB 2 2 100, mkB 3 3 100, mkB 4 4 100, mkB 5 5 100,
    mkB 6 10 130, mkB 7 11 130, mkB 8 12 130, mkB 9 13 130, mkB 10 14 130], [], []⟩

/-- Example sparse store with only 3 builds, forcing the fallback to give up. -/
def exDB4s : DB := ⟨[exRepoA], [mkB 1 1 100, mkB 2 2 100, mkB 3 10 100], [], []⟩

/-- Claim C4 witness: the theorem applied to the 10-build store (primary path,
flagging a 30 percent regression) and to the sparse store (fallback with fewer
than 10 builds, no finding). -/
theorem c4_duration_regression_witness :
    detectBuildDurationRegression exDB4 1 (20 * 86400) =
      mkRegression 1 (baselineBuilds exDB4 1 (20 * 86400 - 14 * 86400))
        (recentBuilds exDB4 1 (20 * 86400 - 14 * 86400)) ∧
    detectBuildDurationRegression exDB4s 1 (20 * 86400) = none ∧
    (mkRegression 1 (baselineBuilds exDB4 1 (20 * 86400 - 14 * 86400))
        (recentBuilds exDB4 1 (20 * 86400 - 14 * 86400))).isSome = true :=
  ⟨(c4_duration_regression.2 exDB4 1 (20 * 86400)).1 (by decide) (by decide),
   ((c4_duration_regression.2 exDB4s 1 (20 * 86400)).2 (by decide)).1 (by decide),
   ((c4_duration_regression.1 1 (baselineBuilds exDB4 1 (20 * 86400 - 14 * 86400))
      (recentBuilds exDB4 1 (20 * 86400 - 14 * 86400))).1).mpr (by decide)⟩

/-! ### Claim C8 theorems -/

/-- Example build step of build 1 named build with the given memory fields. -/
def exStep (i : Nat) (peak limit : Int) : BuildStepR :=
  ⟨i, 1, toL "build", toL "script", some 60, toL "SUCCESSFUL", none, some limit, some peak,
   some 1⟩

/-- Example store whose only step group has peaks of 10MB and limits
[0, 0, 0, 0, 100]: the group mean limit is 20, not above twice the mean peak,
yet the truthiness filter drops the zero limits and the code flags it. -/
def exDB8 : DB :=
  ⟨[exRepoA], [mkB 1 1 100],
   [exStep 1 10 0, exStep 2 10 0, exStep 3 10 0, exStep 4 10 0, exStep 5 10 100], []⟩

/-- Example group matching the spec: five steps with mean peak 400MB and mean
limit 1000MB. -/
def exG400 : List BuildStepR :=
  [exStep 1 400 1000, exStep 2 400 1000, exStep 3 400 1000, exStep 4 400 1000,
   exStep 5 400 1000]

/-- Example group with mean limit 700MB, below the 2x threshold. -/
def exG700 : List BuildStepR :=
  [exStep 1 400 700, exStep 2 400 700, exStep 3 400 700, exStep 4 400 700, exStep 5 400 700]

/-- Claim C8 counterexample: with peaks all 10MB and limits [0, 0, 0, 0, 100],
detect_resource_waste flags memory waste although the group means do not
satisfy mean(limit) > 2 x mean(peak) (20 is not above 20): the code means are
taken over the non-zero values only, because the Python comprehension filters
on value truthiness. -/
theorem c8_counterexample :
    (detectResourceWaste exDB8 1).map (fun f => f.wtype) = [toL "memory_waste"] ∧
    ¬ ((((0 : ℚ) + 0 + 0 + 0 + 100) / 5) > 2 * (((10 : ℚ) + 10 + 10 + 10 + 10) / 5)) := by
  constructor
  · decide
  · norm_num

/-- Claim C8 (amended): a step-name group is flagged for memory waste exactly
when it has at least 5 steps with peak and limit known and the mean over the
known non-zero limits exceeds twice the mean over the known non-zero peaks; a
finding reports the waste ratio of those two means and a recommended limit of
1.5 times the mean peak truncated to an integer; every memory-waste finding of
detect_resource_waste arises from such a group; the spec numbers hold: mean
peak 400MB with mean limit 1000MB is flagged with recommended limit 600MB, and
mean limit 700MB is not flagged. -/
theorem c8_memory_waste :
    (∀ (rid : Nat) (nm : List Char) (g : List BuildStepR),
      ((memWasteForGroup rid nm g).isSome ↔
        (5 ≤ g.length ∧ ∃ aP aL,
          meanOptI (truthyI (fun s => s.peak_memory_mb) g) = some aP ∧
          meanOptI (truthyI (fun s => s.memory_limit_mb) g) = some aL ∧ aL > aP * 2)) ∧
      (∀ f aP aL, memWasteForGroup rid nm g = some f →
        meanOptI (truthyI (fun s => s.peak_memory_mb) g) = some aP →
        meanOptI (truthyI (fun s => s.memory_limit_mb) g) = some aL →
        f.wtype = toL "memory_waste" ∧ f.step_name = nm ∧
        f.avg_used = aP ∧ f.avg_limit = aL ∧
        f.waste_ratio = (if aP > 0 then aL / aP else 0) ∧
        f.recommended = ratTrunc (aP * (3 / 2 : ℚ)))) ∧
    (∀ (db : DB) (rid : Nat) (f : WasteFinding),
      f ∈ detectResourceWaste db rid → f.wtype = toL "memory_waste" →
      ∃ nm, memWasteForGroup rid nm (groupOf (stepsWithMemory db rid) nm) = some f) ∧
    (memWasteForGroup 1 (toL "build") exG400).map (fun f => f.recommended) = some 600 ∧
    memWasteForGroup 1 (toL "build") exG700 = none := by
  refine ⟨?_, ?_, by decide, by decide⟩
  · intro rid nm g
    constructor
    · rw [memWasteForGroup]
      split
      · rename_i hlen
        simp only [Option.isSome_none, Bool.false_eq_true, false_iff]
        rintro ⟨h5, -⟩
        omega
      · rename_i hlen
        rcases hP : meanOptI (truthyI (fun s => s.peak_memory_mb) g) with _ | aP <;>
          rcases hL : meanOptI (truthyI (fun s => s.memory_limit_mb) g) with _ | aL <;>
            simp only [hP, hL]
        · simp
        · simp
        · simp
        · split
          · rename_i hgt
            simp only [Option.isSome_some, true_iff]
            exact ⟨by omega, aP, aL, rfl, rfl, hgt⟩
          · rename_i hle
            simp only [Option.isSome_none, Bool.false_eq_true, false_iff]
            rintro ⟨-, aP2, aL2, hP2, hL2, hgt2⟩
            rw [Option.some.injEq] at hP2 hL2
            subst hP2
            subst hL2
            exact hle hgt2
    · intro f aP aL hf hP hL
      rw [memWasteForGroup] at hf
      split at hf
      · cases hf
      · rw [hP, hL] at hf
        simp only at hf
        split at hf
        · rw [Option.some.injEq] at hf
          subst hf
          exact ⟨rfl, rfl, rfl, rfl, rfl, rfl⟩
        · cases hf
  · intro db rid f hf hty
    rw [detectResourceWaste] at hf
    rcases List.mem_append.mp hf with hmem | hmem
    · rcases List.mem_filterMap.mp hmem with ⟨nm, _, hnm⟩
      exact ⟨nm, hnm⟩
    · exfalso
      rcases List.mem_filterMap.mp hmem with ⟨nm, _, hnm⟩
      rw [timeWasteForGroup] at hnm
      split at hnm
      · cases hnm
      · split at hnm
        · split at hnm
          · rw [Option.some.injEq] at hnm
            subst hnm
            simp [toL] at hty
          · cases hnm
        · cases hnm

/-- The memory-waste finding the code produces on the 400MB/1000MB group. -/
def exF400 : WasteFinding := (memWasteForGroup 1 (toL "build") exG400).getD default

/-- The memory-waste finding the code produces on the zero-limits store. -/
def exF8 : WasteFinding := (detectResourceWaste exDB8 1).headD default

/-- Claim C8 witness: the amended theorem applied to the 400MB/1000MB group
(field values of the flagged finding) and to the concrete store (every
memory-waste finding stems from a group). -/
theorem c8_memory_waste_witness :
    (exF400.wtype = toL "memory_waste" ∧ exF400.step_name = toL "build" ∧
      exF400.avg_used = 400 ∧ exF400.avg_limit = 1000 ∧
      exF400.waste_ratio = (if (400 : ℚ) > 0 then (1000 : ℚ) / 400 else 0) ∧
      exF400.recommended = ratTrunc ((400 : ℚ) * (3 / 2 : ℚ))) ∧
    (∃ nm, memWasteForGroup 1 nm (groupOf (stepsWithMemory exDB8 1) nm) = some exF8) :=
  ⟨(c8_memory_waste.1 1 (toL "build") exG400).2 exF400 400 1000 (by decide) (by decide)
      (by decide),
   c8_memory_waste.2.1 exDB8 1 exF8 (by decide) (by decide)⟩

/-- Claim C5 witness: the theorem applied to the concrete store and provider
(repository A fails, repository B stores a failure), discharging both the
repository lookup and the analysis-outcome hypotheses, plus the bound on a
concrete non-empty hash query. -/
theorem c5_cross_repo_search_witness :
    (exInfo.failed_steps = getFailedStepLogs exBB ∧
     exInfo.failed_steps ≠ [] ∧
     exInfo.signature_hash = (exInfo.failed_steps.headD default).signature_hash ∧
     exInfo.other_repos = findOtherReposWithError exDB exRepoA.id exInfo.signature_hash) ∧
    (findOtherReposWithError exDB 1 (toL "abc123")).length ≤ 10 :=
  ⟨c5_cross_repo_search.1 exDB exBB (toL "repo-a") exInfo exRepoA (by decide) (by decide),
   (c5_cross_repo_search.2 exDB 1 (toL "abc123") (by decide)).1⟩

/-- Claim C6 witness: the amended theorem applied to concrete messages, one where
timeout survives normalization and wins over permission denied, and one with no
canonical substring at all. -/
theorem c6_priority_first_match_witness :
    normalizeErrorMessage (toL "Timeout and permission denied") = toL "timeout" ∧
    normalizeErrorMessage (toL "all quiet here") = (normTextC6 (toL "all quiet here")).take 100 :=
  ⟨(c6_priority_first_match (toL "Timeout and permission denied")).1 (by decide),
   (c6_priority_first_match (toL "all quiet here")).2.2 (by decide)⟩

/-! ### Claim C3 theorems -/

/-- An acknowledged stored diagnostic sharing the dedup triple. -/
def exAckRow : DiagRow := ⟨some 1, toL "regression", toL "high", toL "T", toL "m", true⟩

/-- A freshly generated diagnostic with the same triple. -/
def exDiag : DiagDict := ⟨some 1, toL "regression", toL "high", toL "T", toL "m2"⟩

/-- Claim C3 counterexample: the store holds only an acknowledged diagnostic
with the triple, so by the claim the save should insert, yet save_diagnostics
skips, because its existence filter never checks the acknowledged flag. -/
theorem c3_counterexample :
    (∀ row ∈ [exAckRow], row.acknowledged = true) ∧
    diagMatches exDiag exAckRow = true ∧
    saveDiagnostics [exAckRow] [exDiag] = [exAckRow] := by
  refine ⟨by decide, by decide, by decide⟩

/-- Claim C3 (amended): save_diagnostics skips inserting exactly when any
existing diagnostic (acknowledged or not) with the same (repository_id, type,
title) is stored; it never updates an existing row in place (the stored rows
are a prefix of the result); and running the save twice with the same batch
inserts nothing the second time. -/
theorem c3_save_idempotent :
    (∀ (rows : List DiagRow) (d : DiagDict),
      ((∃ row ∈ rows, diagMatches d row = true) → saveOne rows d = rows) ∧
      (¬(∃ row ∈ rows, diagMatches d row = true) →
        saveOne rows d = rows ++ [mkDiagRow d])) ∧
    (∀ (rows : List DiagRow) (ds : List DiagDict),
      List.IsPrefix rows (saveDiagnostics rows ds)) ∧
    (∀ (rows : List DiagRow) (ds : List DiagDict),
      saveDiagnostics (saveDiagnostics rows ds) ds = saveDiagnostics rows ds) :=
  ⟨fun _ _ => ⟨saveOne_skip, saveOne_insert⟩,
   saveDiagnostics_isPrefix,
   fun rows ds =>
     saveDiagnostics_stable (fun d hd => saveDiagnostics_all_matched ds rows d hd)⟩

/-- Claim C3 witness: the amended theorem applied to the one-row store (skip on
an acknowledged duplicate) and to the empty store (insert). -/
theorem c3_save_idempotent_witness :
    saveOne [exAckRow] exDiag = [exAckRow] ∧
    saveOne [] exDiag = [] ++ [mkDiagRow exDiag] :=
  ⟨(c3_save_idempotent.1 [exAckRow] exDiag).1 ⟨exAckRow, by decide, by decide⟩,
   (c3_save_idempotent.1 [] exDiag).2 (by decide)⟩

/-! ### Claim C7 theorems -/

/-- A provider step whose result state is ERROR. -/
def exErrStep : StepData :=
  ⟨some (toL "su"), toL "test", toL "script", some 0, some 60, some (toL "ERROR"), none,
   toL "boom error", some (toL "error: x"), some 1⟩

/-- A provider step whose result state is FAILED. -/
def exFailedStep : StepData :=
  ⟨some (toL "su"), toL "test", toL "script", some 0, some 60, some (toL "FAILED"), none,
   toL "timeout waiting", some (toL "error: x\nok line"), some 1⟩

/-- Claim C7 counterexample: a step ingested with state ERROR gets no
BuildFailure record, refuting the claimed if-and-only-if with FAILED-or-ERROR:
the collector creates a failure row only for the FAILED state. -/
theorem c7_counterexample :
    stepStateOf exErrStep = toL "ERROR" ∧
    (ingestStep 0 exErrStep).failure = none := by
  refine ⟨by decide, by decide⟩

/-- Claim C7 (amended): during build ingestion one result is produced per step
(so a step carries at most one failure record, an Option), and the failure
record is present if and only if the computed step state is exactly FAILED; a
step in state ERROR gets none. -/
theorem c7_failure_iff_failed :
    ∀ (now : Int) (sds : List StepData),
      collectSteps now sds = sds.map (ingestStep now) ∧
      ∀ sd ∈ sds,
        ((ingestStep now sd).failure.isSome = true ↔ stepStateOf sd = toL "FAILED") := by
  intro now sds
  refine ⟨rfl, fun sd _ => ?_⟩
  rw [ingestStep]
  split
  · rename_i h
    simpa using h
  · rename_i h
    simpa using h

/-- Claim C7 witness: the amended theorem applied to the concrete FAILED step. -/
theorem c7_failure_iff_failed_witness :
    (ingestStep 0 exFailedStep).failure.isSome = true ↔
      stepStateOf exFailedStep = toL "FAILED" :=
  (c7_failure_iff_failed 0 [exFailedStep]).2 exFailedStep (by decide)

/-! ### Claim C9 theorems -/

/-- Claim C9: the enhancer is a total function whose only effect is possibly
appending a suggestion: whenever enrichment is disabled (the effective use_ai
flag is off), the HTTP call raised, the response status is not 200, or the
provider produced no suggestion, the diagnostic message is returned unchanged.
Exceptions of the external calls are modelled by the raised outcome and the
none result, both of which the source swallows. -/
theorem c9_enhance_fallback :
    ∀ (c : AIConfig) (hf : HttpOutcome) (oa : Option (List Char)) (d : DiagnosticDict),
      (∃ r, enhanceDiagnostic c hf oa d = d.message ++ r) ∧
      (effectiveUseAI c = false → enhanceDiagnostic c hf oa d = d.message) ∧
      queryHuggingface .raised = none ∧
      (∀ status body, status ≠ 200 → queryHuggingface (.response status body) = none) ∧
      (c.ai_provider = toL "huggingface" → queryHuggingface hf = none →
        enhanceDiagnostic c hf oa d = d.message) ∧
      (c.ai_provider = toL "openai" → oa = none →
        enhanceDiagnostic c hf oa d = d.message) := by
  intro c hf oa d
  refine ⟨?_, ?_, rfl, ?_, ?_, ?_⟩
  · rw [enhanceDiagnostic]
    split
    · exact ⟨[], by simp⟩
    · rcases hs : suggestionOf c hf oa with _ | s
      · exact ⟨[], by simp⟩
      · exact ⟨toL "\n\n💡 Suggestion: " ++ s, by simp⟩
  · intro h
    rw [enhanceDiagnostic, if_pos (by simp [h])]
  · intro status body h
    have hb : (status == 200) = false := by simpa using h
    simp [queryHuggingface, hb]
  · intro hp hq
    rw [enhanceDiagnostic]
    split
    · rfl
    · have h1 : suggestionOf c hf oa = none := by
        rw [suggestionOf, if_pos (by simp [hp]), hq]
      rw [h1]
  · intro hp hoa
    rw [enhanceDiagnostic]
    split
    · rfl
    · have h1 : suggestionOf c hf oa = none := by
        rw [suggestionOf, hp, if_neg (by decide), if_pos (by decide), hoa]
      rw [h1]

/-- A huggingface configuration with suggestions enabled. -/
def exCfgHF : AIConfig := ⟨true, toL "huggingface", none, none⟩

/-- A concrete diagnostic message for the enhancer witness. -/
def exDiagD : DiagnosticDict := ⟨toL "regression", toL "builds regressed 30.0 pct"⟩

/-- Claim C9 witness: the theorem applied to the enabled huggingface
configuration with a raised HTTP call (message unchanged) and with a
successful response (message extended by some suffix). -/
theorem c9_enhance_fallback_witness :
    enhanceDiagnostic exCfgHF .raised none exDiagD = exDiagD.message ∧
    (∃ r, enhanceDiagnostic exCfgHF (.response 200 (some [toL "Try caching. More."])) none
        exDiagD = exDiagD.message ++ r) :=
  ⟨(c9_enhance_fallback exCfgHF .raised none exDiagD).2.2.2.2.1 (by decide) rfl,
   (c9_enhance_fallback exCfgHF (.response 200 (some [toL "Try caching. More."])) none
      exDiagD).1⟩

end CICDMetrics
